import Mathlib

/-!
Verification of the login / MFA state machine of `garmin_mcp_server.py`.

The source program keeps four pieces of shared mutable state, all protected by
one `threading.Lock` (lines 42-48):

* `login_state : None | 0 | 1 | 2` (`LOGIN_STATE_SUCCESS/MFA/ERROR`),
* `need_mfa : None | bool`,
* `mfa_code : None | int`,

plus the opaque `garmin` client handle.  A background thread runs `login()`
(lines 81-111); the library may call back into `get_mfa` (lines 130-152) which
polls for a deposited code; the MCP tool `enter_mfa_code` (lines 225-248)
deposits a code and polls for the final login state; `init_api`'s caller polls
in the loop at lines 117-126.

Each poll loop (`sleep(0.1)` then re-check under the lock) is embedded as a
structurally recursive function over a *schedule of observations*
`obs : Nat → _` (the value of the shared variable at the i-th poll) and a fuel
bound (the number of polls that fit before the wall-clock deadline; real time
itself is abstracted, the deadline constants 1800 and 30 from the source are
kept as named constants).  The interleaving of the worker thread and tool
calls is embedded as a labelled transition system `Step` over the shared
state together with the worker's control point.
-/

namespace GarminMcp

/-- Login-state constant, line 42 of the source. -/
def LOGIN_STATE_SUCCESS : Nat := 0

/-- Login-state constant, line 43 of the source. -/
def LOGIN_STATE_MFA : Nat := 1

/-- Login-state constant, line 44 of the source. -/
def LOGIN_STATE_ERROR : Nat := 2

/-- The `timeout = 1800` (seconds) of `get_mfa`, line 141. -/
def MFA_TIMEOUT : Nat := 1800

/-- The literal `30` (seconds) bound of `enter_mfa_code`'s wait loop, line 244. -/
def SUBMIT_WAIT_LIMIT : Nat := 30

/-- Python truthiness of the global `mfa_code` (`None` or an `int`):
`if mfa_code:` at line 146 is false both for `None` and for the integer `0`. -/
def truthyCode : Option Int → Bool
  | none => false
  | some c => c != 0

/-- Python truthiness of the global `need_mfa` (`None` or a `bool`), line 120. -/
def truthyFlag : Option Bool → Bool
  | none => false
  | some b => b

/-- The exception classes relevant to the two `except` clauses of the source. -/
inductive PyExc
  | fileNotFound
  | garthHTTP
  | garminAuth
  | requestsHTTP
  | timeoutError
deriving DecidableEq

/-- Membership in the `except` tuple of the `login()` thread body, lines 103-108:
`(FileNotFoundError, GarthHTTPError, GarminConnectAuthenticationError,
requests.exceptions.HTTPError)`.  `TimeoutError` (raised by `get_mfa` at
line 152) is not in the tuple. -/
def login_catches : PyExc → Bool
  | .fileNotFound => true
  | .garthHTTP => true
  | .garminAuth => true
  | .requestsHTTP => true
  | .timeoutError => false

/-- Membership in the `except` tuple of `init_api`'s silent-login attempt,
line 70: `(FileNotFoundError, GarthHTTPError, GarminConnectAuthenticationError)`. -/
def silent_catches : PyExc → Bool
  | .fileNotFound => true
  | .garthHTTP => true
  | .garminAuth => true
  | .requestsHTTP => false
  | .timeoutError => false

/-- The value the `login()` thread body (lines 81-111) leaves in `login_state`,
as a function of the outcome of `garmin.login()` and the token dumps:
on success `login_state = LOGIN_STATE_SUCCESS` (line 102); on an exception in
the `except` tuple `login_state = LOGIN_STATE_ERROR` (line 111); on any other
exception the thread dies without writing `login_state` (`none`). -/
def login_thread_result : Except PyExc Unit → Option Nat
  | .ok _ => some LOGIN_STATE_SUCCESS
  | .error e => if login_catches e then some LOGIN_STATE_ERROR else none

/-- The wait loop of `get_mfa`, lines 143-152: at each poll, if `mfa_code` is
truthy it is consumed and returned; when the 1800 s deadline passes (fuel
exhausted) a `TimeoutError("MFA timeout")` is raised, embedded as
`Except.error`.  `obs i` is the value of `mfa_code` at the i-th poll. -/
def get_mfa_wait : (Nat → Option Int) → Nat → Except String Int
  | _, 0 => Except.error "MFA timeout"
  | obs, Nat.succ n =>
    if truthyCode (obs 0) then Except.ok ((obs 0).getD 0)
    else get_mfa_wait (fun i => obs (i + 1)) n

/-- The wait loop of `enter_mfa_code`, lines 238-248: poll `login_state`;
when it becomes non-`None`, return "Failed to complete login" for
`LOGIN_STATE_ERROR` and "MFA code entered successfully." otherwise; when the
30 s deadline passes (fuel exhausted) return the timed-out message.
`obs i` is the value of `login_state` at the i-th poll.  (The re-read of
`login_state` at line 246 after the loop breaks sees the same value because
`login_state` is written at most once, as proved below for the transition
system.) -/
def enter_mfa_code_wait : (Nat → Option Nat) → Nat → String
  | _, 0 => "Timed out waiting for login to complete"
  | obs, Nat.succ n =>
    match obs 0 with
    | some st =>
      if st == LOGIN_STATE_ERROR then "Failed to complete login"
      else "MFA code entered successfully."
    | none => enter_mfa_code_wait (fun i => obs (i + 1)) n

/-- The three shared variables (lines 45-47). -/
structure Shared where
  login_state : Option Nat
  need_mfa : Option Bool
  mfa_code : Option Int
deriving DecidableEq

/-- The `enter_mfa_code` tool, lines 225-248: it takes `mfa_code = code` under
the lock (line 237) with NO check of `need_mfa` nor of any pending request,
then runs the wait loop.  It writes nothing but `mfa_code`. -/
def enter_mfa_code (code : Int) (s : Shared) (obs : Nat → Option Nat)
    (fuel : Nat) : Shared × String :=
  ({ s with mfa_code := some code }, enter_mfa_code_wait obs fuel)

/-- One iteration of the wait loop in `init_api`, lines 117-126 (the body
under the lock): `some r` means `init_api` returns `r`, `none` means it keeps
looping.  `need_mfa` is checked first; then, if `login_state` is set,
`(LOGIN_STATE_ERROR, None)` is returned unless it equals
`LOGIN_STATE_SUCCESS`, in which case the loop breaks and line 128 returns
`(LOGIN_STATE_SUCCESS, garmin)`.  The opaque `garmin` handle is `Unit`. -/
def init_api_poll (s : Shared) : Option (Nat × Option Unit) :=
  if truthyFlag s.need_mfa then some (LOGIN_STATE_MFA, some ())
  else
    match s.login_state with
    | none => none
    | some st =>
      if st != LOGIN_STATE_SUCCESS then some (LOGIN_STATE_ERROR, none)
      else some (LOGIN_STATE_SUCCESS, some ())

/-- The wait loop of `init_api` as a whole (`while True: sleep(0.1); ...`,
lines 117-126): `obs i` is the shared state at the i-th poll; `none` means the
caller is still blocked inside `init_api` after that many polls (the loop has
no deadline of its own). -/
def init_api_wait : (Nat → Shared) → Nat → Option (Nat × Option Unit)
  | _, 0 => none
  | obs, Nat.succ n =>
    match init_api_poll (obs 0) with
    | some r => some r
    | none => init_api_wait (fun i => obs (i + 1)) n

/-- Observable side effects of `init_api` and of the `login()` thread body. -/
inductive Eff
  | silentLogin
  | startThread
  | interactiveLogin
  | dumpTokensDir
  | dumpTokensB64
deriving DecidableEq

/-- The `try` block of `init_api` (lines 53-68) together with what follows it:
on silent-login success control falls through to line 128 and returns
`(LOGIN_STATE_SUCCESS, garmin)` at once — with no token dump and no thread
start on this path.  On a silent failure in the `except` tuple of line 70 the
interactive path starts the `login()` thread (line 114) and enters the wait
loop (result `none` here: it depends on the concurrent worker, see
`init_api_wait`).  Any other exception propagates out of `init_api`. -/
def init_api_start (silent : Except PyExc Unit) :
    Except PyExc (List Eff × Option (Nat × Option Unit)) :=
  match silent with
  | .ok _ => .ok ([Eff.silentLogin], some (LOGIN_STATE_SUCCESS, some ()))
  | .error e =>
    if silent_catches e then .ok ([Eff.silentLogin, Eff.startThread], none)
    else .error e

/-- Side effects of the `login()` thread body on the success path, lines
85-96: the interactive `garmin.login()`, then `garmin.garth.dump(tokenstore)`
(line 88), then the base64 dump (lines 93-96). -/
def login_thread_success_effects : List Eff :=
  [Eff.interactiveLogin, Eff.dumpTokensDir, Eff.dumpTokensB64]

/-- `main` (lines 158-161): on `LOGIN_STATE_ERROR` it returns before
configuring any module or registering any tool; on `LOGIN_STATE_MFA` and
`LOGIN_STATE_SUCCESS` it proceeds to register them. -/
def main_registers_tools (ls : Nat) : Bool := ls != LOGIN_STATE_ERROR

/-- One activity record as used by `list_activities` (lines 209-216); each
field models `activity.get(key, default)`, with `typeKey` flattening the
nested `activity.get(key1, default-dict).get(key2, default)` access of
line 213. -/
structure Activity where
  activityName : Option String
  typeKey : Option String
  startTimeLocal : Option String
  activityId : Option String

/-- The per-activity block of the result string, lines 210-216. -/
def formatActivity (idx : Nat) (a : Activity) : String :=
  "--- Activity " ++ toString idx ++ " ---\n" ++
  "Activity: " ++ a.activityName.getD "Unknown" ++ "\n" ++
  "Type: " ++ a.typeKey.getD "Unknown" ++ "\n" ++
  "Date: " ++ a.startTimeLocal.getD "Unknown" ++ "\n" ++
  "ID: " ++ a.activityId.getD "Unknown" ++ "\n\n"

/-- The `list_activities` tool, lines 199-220.  It performs NO
authentication-state check: `garmin_client.get_activities(0, limit)` at
line 203 dereferences the client handle unconditionally (recorded in the
second, `Bool` component); every exception — including the `AttributeError` a
`None` client would raise, whose Python message is
`'NoneType' object has no attribute 'get_activities'` — is caught at line 219
and converted to an error string.  `fetch` is the provider's reply. -/
def list_activities (client : Option Unit)
    (fetch : Except String (List Activity)) : String × Bool :=
  match client with
  | none =>
    ("Error retrieving activities: NoneType object has no attribute get_activities",
      true)
  | some _ =>
    match fetch with
    | .error e => ("Error retrieving activities: " ++ e, true)
    | .ok activities =>
      if activities.isEmpty then ("No activities found.", true)
      else
        ("Last " ++ toString activities.length ++ " activities:\n\n" ++
          String.join (activities.enum.map fun p => formatActivity (p.1 + 1) p.2),
          true)

/-- Control points of the `login()` worker thread (including the `get_mfa`
callback it runs): `run` = inside `garmin.login()`; `mfaFlag` = `get_mfa`
entered, about to set `need_mfa` (line 138); `mfaWait` = inside `get_mfa`'s
wait loop (lines 143-152); `finishing` = `garmin.login()` and the token dumps
returned, about to write `LOGIN_STATE_SUCCESS` (line 102); `erroring` = a
caught exception, about to write `LOGIN_STATE_ERROR` (line 111); `done` =
thread body finished; `dead` = thread killed by an uncaught exception
(`TimeoutError` from line 152). -/
inductive WPC
  | run
  | mfaFlag
  | mfaWait
  | finishing
  | erroring
  | done
  | dead
deriving DecidableEq

/-- A global program state: the shared variables plus the worker's control
point.  `main`'s thread and tool invocations only read the shared variables
(besides `enter_mfa_code`'s write to `mfa_code`, a `Step` label below). -/
structure Sys where
  login_state : Option Nat
  need_mfa : Option Bool
  mfa_code : Option Int
  wpc : WPC
deriving DecidableEq

/-- The shared variables visible to the other threads. -/
def Sys.shared (s : Sys) : Shared := ⟨s.login_state, s.need_mfa, s.mfa_code⟩

/-- State right after `thread.start()` at line 114: all three globals still at
their initial `None` (lines 45-47), worker entering `garmin.login()`. -/
def initSys : Sys := ⟨none, none, none, WPC.run⟩

/-- Labels of the atomic steps below. -/
inductive Label
  | libOk
  | libErr
  | libMfa
  | flagSet
  | consume (c : Int)
  | mfaTimeout
  | setSuccess
  | setError
  | deposit (c : Int)

/-- The atomic (lock-protected) steps of the program.  Worker steps: the
external library either completes (`libOk`), raises a caught exception
(`libErr`) or invokes the `get_mfa` callback (`libMfa`); `flagSet` is
line 138 (`need_mfa = True`); `consume` is lines 146-149 (guarded by the
truthiness of `mfa_code`, it reads the code and clears `mfa_code` and
`need_mfa` in one lock-protected block); `mfaTimeout` is the uncaught
`TimeoutError` of line 152 killing the thread; `setSuccess`/`setError` are
the writes to `login_state` at lines 102/111.  `deposit` is
`enter_mfa_code`'s write at line 237, possible at any time once the tool is
registered. -/
inductive Step : Sys → Label → Sys → Prop
  | libOk (s : Sys) : s.wpc = WPC.run →
      Step s Label.libOk { s with wpc := WPC.finishing }
  | libErr (s : Sys) : s.wpc = WPC.run →
      Step s Label.libErr { s with wpc := WPC.erroring }
  | libMfa (s : Sys) : s.wpc = WPC.run →
      Step s Label.libMfa { s with wpc := WPC.mfaFlag }
  | flagSet (s : Sys) : s.wpc = WPC.mfaFlag →
      Step s Label.flagSet { s with need_mfa := some true, wpc := WPC.mfaWait }
  | consume (s : Sys) (c : Int) : s.wpc = WPC.mfaWait → s.mfa_code = some c →
      c ≠ 0 →
      Step s (Label.consume c)
        { s with mfa_code := none, need_mfa := some false, wpc := WPC.run }
  | mfaTimeout (s : Sys) : s.wpc = WPC.mfaWait →
      Step s Label.mfaTimeout { s with wpc := WPC.dead }
  | setSuccess (s : Sys) : s.wpc = WPC.finishing →
      Step s Label.setSuccess
        { s with login_state := some LOGIN_STATE_SUCCESS, wpc := WPC.done }
  | setError (s : Sys) : s.wpc = WPC.erroring →
      Step s Label.setError
        { s with login_state := some LOGIN_STATE_ERROR, wpc := WPC.done }
  | deposit (s : Sys) (c : Int) :
      Step s (Label.deposit c) { s with mfa_code := some c }

/-- States reachable from `initSys`. -/
inductive Reachable : Sys → Prop
  | init : Reachable initSys
  | step (s : Sys) (l : Label) (s' : Sys) :
      Reachable s → Step s l s' → Reachable s'

/-- Zero or more steps. -/
inductive Steps : Sys → Sys → Prop
  | refl (s : Sys) : Steps s s
  | tail (s t u : Sys) (l : Label) : Steps s t → Step t l u → Steps s u

/-! ### Helper lemmas about the three poll loops -/

/-- If the code is never truthy at any poll, `get_mfa`'s wait loop runs to its
deadline and raises the timeout, whatever the fuel. -/
lemma get_mfa_wait_all_falsy :
    ∀ (n : Nat) (obs : Nat → Option Int), (∀ i, truthyCode (obs i) = false) →
      get_mfa_wait obs n = Except.error "MFA timeout" := by
  intro n
  induction n with
  | zero => intro obs _; rfl
  | succ n ih =>
    intro obs h
    simp only [get_mfa_wait, h 0, Bool.false_eq_true, if_false]
    exact ih _ (fun i => h (i + 1))

/-- If `login_state` is never set at any poll, `enter_mfa_code`'s wait loop
returns the timed-out message, whatever the fuel. -/
lemma enter_mfa_code_wait_all_none :
    ∀ (n : Nat) (obs : Nat → Option Nat), (∀ i, obs i = none) →
      enter_mfa_code_wait obs n = "Timed out waiting for login to complete" := by
  intro n
  induction n with
  | zero => intro obs _; rfl
  | succ n ih =>
    intro obs h
    simp only [enter_mfa_code_wait, h 0]
    exact ih _ (fun i => h (i + 1))

/-- If `login_state` is first observed set (to `st`) at poll `i`, within the
fuel bound, `enter_mfa_code`'s wait loop returns the message determined by
`st`. -/
lemma enter_mfa_code_wait_hit :
    ∀ (i n : Nat) (obs : Nat → Option Nat) (st : Nat), i < n →
      obs i = some st → (∀ j, j < i → obs j = none) →
      enter_mfa_code_wait obs n =
        (if st == LOGIN_STATE_ERROR then "Failed to complete login"
          else "MFA code entered successfully.") := by
  intro i
  induction i with
  | zero =>
    intro n obs st hn hobs _
    match n, hn with
    | Nat.succ m, _ => simp only [enter_mfa_code_wait, hobs]
  | succ k ih =>
    intro n obs st hn hobs hpre
    match n, hn with
    | Nat.succ m, hm =>
      have h0 : obs 0 = none := hpre 0 (Nat.succ_pos k)
      simp only [enter_mfa_code_wait, h0]
      exact ih m (fun x => obs (x + 1)) st (Nat.lt_of_succ_lt_succ hm) hobs
        (fun j hj => hpre (j + 1) (Nat.succ_lt_succ hj))

/-- If no poll of `init_api`'s wait loop sees a reason to return, the caller
is still blocked after any number of polls. -/
lemma init_api_wait_all_none :
    ∀ (n : Nat) (obs : Nat → Shared), (∀ i, init_api_poll (obs i) = none) →
      init_api_wait obs n = none := by
  intro n
  induction n with
  | zero => intro obs _; rfl
  | succ n ih =>
    intro obs h
    simp only [init_api_wait, h 0]
    exact ih _ (fun i => h (i + 1))

/-- If poll `i` is the first at which `init_api`'s loop sees a result, within
the fuel bound, `init_api` returns that result. -/
lemma init_api_wait_hit :
    ∀ (i n : Nat) (obs : Nat → Shared) (r : Nat × Option Unit), i < n →
      init_api_poll (obs i) = some r →
      (∀ j, j < i → init_api_poll (obs j) = none) →
      init_api_wait obs n = some r := by
  intro i
  induction i with
  | zero =>
    intro n obs r hn hobs _
    match n, hn with
    | Nat.succ m, _ => simp only [init_api_wait, hobs]
  | succ k ih =>
    intro n obs r hn hobs hpre
    match n, hn with
    | Nat.succ m, hm =>
      have h0 : init_api_poll (obs 0) = none := hpre 0 (Nat.succ_pos k)
      simp only [init_api_wait, h0]
      exact ih m (fun x => obs (x + 1)) r (Nat.lt_of_succ_lt_succ hm) hobs
        (fun j hj => hpre (j + 1) (Nat.succ_lt_succ hj))

/-! ### Invariants of the transition system -/

/-- `login_state` is only ever written by the two steps that move the worker
to `done`: in any reachable state a set `login_state` means the worker body
has finished. -/
lemma reachable_login_state_done (s : Sys) (h : Reachable s) :
    s.login_state ≠ none → s.wpc = WPC.done := by
  induction h with
  | init => intro h; exact absurd rfl h
  | step t l t' _ hstep ih =>
    cases hstep with
    | libOk hpc => intro h; exact absurd (ih h) (by rw [hpc]; intro hh; cases hh)
    | libErr hpc => intro h; exact absurd (ih h) (by rw [hpc]; intro hh; cases hh)
    | libMfa hpc => intro h; exact absurd (ih h) (by rw [hpc]; intro hh; cases hh)
    | flagSet hpc => intro h; exact absurd (ih h) (by rw [hpc]; intro hh; cases hh)
    | consume c hpc _ _ =>
      intro h; exact absurd (ih h) (by rw [hpc]; intro hh; cases hh)
    | mfaTimeout hpc =>
      intro h; exact absurd (ih h) (by rw [hpc]; intro hh; cases hh)
    | setSuccess _ => intro _; rfl
    | setError _ => intro _; rfl
    | deposit c => exact ih

/-- In any reachable state, while the worker is inside `get_mfa`'s wait loop
the `need_mfa` flag is set: consumption can only happen in the
"awaiting MFA" phase. -/
lemma reachable_mfaWait_need (s : Sys) (h : Reachable s) :
    s.wpc = WPC.mfaWait → s.need_mfa = some true := by
  induction h with
  | init => intro h; cases h
  | step t l t' _ hstep ih =>
    cases hstep with
    | libOk hpc => intro h; cases h
    | libErr hpc => intro h; cases h
    | libMfa hpc => intro h; cases h
    | flagSet hpc => intro _; rfl
    | consume c hpc _ _ => intro h; cases h
    | mfaTimeout hpc => intro h; cases h
    | setSuccess hpc => intro h; cases h
    | setError hpc => intro h; cases h
    | deposit c => exact ih

/-- Single-step monotonicity: from a reachable state with `login_state` set,
no step changes `login_state` or `need_mfa`. -/
lemma login_state_monotonic_step (s s' : Sys) (l : Label) (v : Nat)
    (hr : Reachable s) (hstep : Step s l s') (hv : s.login_state = some v) :
    s'.login_state = some v ∧ s'.need_mfa = s.need_mfa := by
  have hdone : s.wpc = WPC.done :=
    reachable_login_state_done s hr (by rw [hv]; intro h; cases h)
  cases hstep with
  | libOk hpc => rw [hdone] at hpc; cases hpc
  | libErr hpc => rw [hdone] at hpc; cases hpc
  | libMfa hpc => rw [hdone] at hpc; cases hpc
  | flagSet hpc => rw [hdone] at hpc; cases hpc
  | consume c hpc _ _ => rw [hdone] at hpc; cases hpc
  | mfaTimeout hpc => rw [hdone] at hpc; cases hpc
  | setSuccess hpc => rw [hdone] at hpc; cases hpc
  | setError hpc => rw [hdone] at hpc; cases hpc
  | deposit c => exact ⟨hv, rfl⟩

/-- Reachability is preserved along `Steps`. -/
lemma reachable_of_steps (s s' : Sys) (hr : Reachable s) (h : Steps s s') :
    Reachable s' := by
  induction h with
  | refl => exact hr
  | tail t u l _ hstep ih => exact Reachable.step t l u ih hstep

/-- Membership of `enter_mfa_code_wait`'s result in the three possible messages. -/
lemma enter_mfa_code_wait_mem :
    ∀ (n : Nat) (obs : Nat → Option Nat),
      enter_mfa_code_wait obs n = "Timed out waiting for login to complete" ∨
      enter_mfa_code_wait obs n = "Failed to complete login" ∨
      enter_mfa_code_wait obs n = "MFA code entered successfully." := by
  intro n
  induction n with
  | zero => intro obs; exact Or.inl rfl
  | succ n ih =>
    intro obs
    cases hobs : obs 0 with
    | none =>
      simp only [enter_mfa_code_wait, hobs]
      exact ih _
    | some st =>
      simp only [enter_mfa_code_wait, hobs]
      by_cases hst : (st == LOGIN_STATE_ERROR) = true
      · rw [if_pos hst]; exact Or.inr (Or.inl rfl)
      · rw [if_neg hst]; exact Or.inr (Or.inr rfl)

/-- The four possible outcomes of one `init_api` wait-loop iteration. -/
lemma init_api_poll_cases (s : Shared) :
    init_api_poll s = none ∨
    init_api_poll s = some (LOGIN_STATE_MFA, some ()) ∨
    init_api_poll s = some (LOGIN_STATE_ERROR, none) ∨
    init_api_poll s = some (LOGIN_STATE_SUCCESS, some ()) := by
  unfold init_api_poll
  split
  · exact Or.inr (Or.inl rfl)
  · split
    · exact Or.inl rfl
    · split
      · exact Or.inr (Or.inr (Or.inl rfl))
      · exact Or.inr (Or.inr (Or.inr rfl))

/-- The state reached when the worker has signalled MFA and entered its wait
loop (`need_mfa = True`, nothing else written). -/
lemma reachable_awaitingMfa :
    Reachable ⟨none, some true, none, WPC.mfaWait⟩ := by
  have h1 : Reachable ⟨none, none, none, WPC.mfaFlag⟩ :=
    Reachable.step initSys Label.libMfa _ Reachable.init (Step.libMfa initSys rfl)
  exact Reachable.step _ Label.flagSet _ h1 (Step.flagSet _ rfl)

/-- The state reached when the worker completed login without MFA. -/
lemma reachable_success_done :
    Reachable ⟨some LOGIN_STATE_SUCCESS, none, none, WPC.done⟩ := by
  have h1 : Reachable ⟨none, none, none, WPC.finishing⟩ :=
    Reachable.step initSys Label.libOk _ Reachable.init (Step.libOk initSys rfl)
  exact Reachable.step _ Label.setSuccess _ h1 (Step.setSuccess _ rfl)

/-! ### Claims -/

/-- C1, counterexample: `enter_mfa_code` is never rejected.  First conjuncts:
a call made while no MFA request is outstanding (`need_mfa = False`, login
already completed) deposits its code and returns
"MFA code entered successfully." — not a NoRequestPending-style error.  Last
conjuncts: two submissions racing during one outstanding request (the second
one overwriting the first deposited code) BOTH return the success message, so
more than one succeeds. -/
theorem submit_accepted_without_pending_request :
    (enter_mfa_code 111 ⟨some LOGIN_STATE_SUCCESS, some false, none⟩
        (fun _ => some LOGIN_STATE_SUCCESS) 300).2
      = "MFA code entered successfully." ∧
    (enter_mfa_code 111 ⟨some LOGIN_STATE_SUCCESS, some false, none⟩
        (fun _ => some LOGIN_STATE_SUCCESS) 300).1.mfa_code = some 111 ∧
    (enter_mfa_code 111 ⟨none, some true, none⟩
        (fun _ => some LOGIN_STATE_SUCCESS) 300).2
      = "MFA code entered successfully." ∧
    (enter_mfa_code 222 ⟨none, some true, some 111⟩
        (fun _ => some LOGIN_STATE_SUCCESS) 300).2
      = "MFA code entered successfully." := by
  exact ⟨rfl, rfl, rfl, rfl⟩

/-- C1, amended: `enter_mfa_code` (lines 225-248) performs no pending-request
check at all: whatever the shared state, it overwrites `mfa_code` with the
submitted code, leaves `login_state` and `need_mfa` untouched, and returns one
of the three messages determined solely by the observed `login_state` — there
is no NoRequestPending-style rejection anywhere in its result set.  (The only
guard in the source is that the tool is registered at all just when
`init_api` returned `LOGIN_STATE_MFA`, line 222.) -/
theorem enter_mfa_code_no_pending_check (code : Int) (s : Shared)
    (obs : Nat → Option Nat) (n : Nat) :
    (enter_mfa_code code s obs n).1
      = { login_state := s.login_state, need_mfa := s.need_mfa,
          mfa_code := some code } ∧
    ((enter_mfa_code code s obs n).2 = "Timed out waiting for login to complete" ∨
      (enter_mfa_code code s obs n).2 = "Failed to complete login" ∨
      (enter_mfa_code code s obs n).2 = "MFA code entered successfully.") :=
  ⟨rfl, enter_mfa_code_wait_mem n obs⟩

/-- C2: when no code arrives, `get_mfa`'s wait loop does raise
`TimeoutError("MFA timeout")` after its 1800 s deadline — but that exception
is NOT in the `except` tuple of the `login()` thread body (lines 103-108), so
the thread dies without writing `login_state`: the resulting state is `None`
(never observed as failed), not `LOGIN_STATE_ERROR`/`Failed(MFATimeout)` as
the specification requires. -/
theorem mfa_timeout_leaves_login_state_unset :
    get_mfa_wait (fun _ => none) (10 * MFA_TIMEOUT) = Except.error "MFA timeout" ∧
    login_catches PyExc.timeoutError = false ∧
    login_thread_result (Except.error PyExc.timeoutError) = none ∧
    login_thread_result (Except.error PyExc.timeoutError)
      ≠ some LOGIN_STATE_ERROR := by
  refine ⟨get_mfa_wait_all_falsy _ _ (fun _ => rfl), rfl, rfl, ?_⟩
  intro h
  exact Option.noConfusion h

/-- C3, counterexample: in the reachable state where the worker awaits an MFA
code, `init_api` hands `main` the non-null client handle with
`LOGIN_STATE_MFA`; a `list_activities` call in that (non-authenticated) state
dereferences the handle (second component `true`) — the provider's rejection
is merely caught and converted to an error string. -/
theorem list_activities_dereferences_unauthenticated :
    Reachable ⟨none, some true, none, WPC.mfaWait⟩ ∧
    init_api_poll (Sys.shared ⟨none, some true, none, WPC.mfaWait⟩)
      = some (LOGIN_STATE_MFA, some ()) ∧
    (list_activities (some ()) (Except.error "401 Unauthorized")).2 = true ∧
    (list_activities (some ()) (Except.error "401 Unauthorized")).1
      = "Error retrieving activities: 401 Unauthorized" :=
  ⟨reachable_awaitingMfa, rfl, rfl, rfl⟩

/-- C3, amended: there is no authentication gate, but two weaker guarantees
hold.  Whenever `init_api`'s result lets `main` register tools at all (i.e.
it is not `LOGIN_STATE_ERROR`, lines 158-161), the handle passed to them is
non-null — so the handle is never dereferenced when null; and any provider
error raised through the dereference is caught (line 219) and returned as the
"Error retrieving activities: ..." string rather than propagated. -/
theorem tool_error_string_spec (s : Shared) (c : Nat) (h : Option Unit)
    (e : String) (hres : init_api_poll s = some (c, h))
    (hreg : main_registers_tools c = true) :
    h = some () ∧
    (list_activities h (Except.error e)).1 = "Error retrieving activities: " ++ e ∧
    (list_activities h (Except.error e)).2 = true := by
  have hh : h = some () := by
    rcases init_api_poll_cases s with h0 | h1 | h2 | h3
    · rw [h0] at hres; cases hres
    · have h' := h1.symm.trans hres
      simp only [Option.some.injEq, Prod.mk.injEq] at h'
      exact h'.2.symm
    · have h' := h2.symm.trans hres
      simp only [Option.some.injEq, Prod.mk.injEq] at h'
      rw [← h'.1] at hreg
      exact absurd hreg (by decide)
    · have h' := h3.symm.trans hres
      simp only [Option.some.injEq, Prod.mk.injEq] at h'
      exact h'.2.symm
  subst hh
  exact ⟨rfl, rfl, rfl⟩

/-- C3, witness for `tool_error_string_spec` at the reachable MFA state. -/
theorem tool_error_string_spec_witness :
    (some () : Option Unit) = some () ∧
    (list_activities (some ()) (Except.error "401")).1
      = "Error retrieving activities: " ++ "401" ∧
    (list_activities (some ()) (Except.error "401")).2 = true :=
  tool_error_string_spec ⟨none, some true, none⟩ LOGIN_STATE_MFA (some ()) "401"
    rfl rfl

/-- C4, counterexample: at the reachable point where the worker awaits an MFA
code, `init_api` returns the non-null handle together with
`LOGIN_STATE_MFA` — the handle is non-null while the state is not
Authenticated, refuting "non-null iff Authenticated". -/
theorem handle_nonnull_while_awaiting_mfa :
    Reachable ⟨none, some true, none, WPC.mfaWait⟩ ∧
    init_api_poll (Sys.shared ⟨none, some true, none, WPC.mfaWait⟩)
      = some (LOGIN_STATE_MFA, some ()) ∧
    LOGIN_STATE_MFA ≠ LOGIN_STATE_SUCCESS ∧
    (some () : Option Unit) ≠ none := by
  refine ⟨reachable_awaitingMfa, rfl, by decide, by decide⟩

/-- C4, amended: the invariant that actually holds of `init_api`'s result is
that the handle is null iff the result state is `LOGIN_STATE_ERROR`; in
particular the handle is also non-null in the non-authenticated
`LOGIN_STATE_MFA` case. -/
theorem handle_none_iff_login_error (s : Shared) (c : Nat) (h : Option Unit)
    (hres : init_api_poll s = some (c, h)) :
    h = none ↔ c = LOGIN_STATE_ERROR := by
  rcases init_api_poll_cases s with h0 | h1 | h2 | h3
  · rw [h0] at hres; cases hres
  · have h' := h1.symm.trans hres
    simp only [Option.some.injEq, Prod.mk.injEq] at h'
    rw [← h'.1, ← h'.2]
    decide
  · have h' := h2.symm.trans hres
    simp only [Option.some.injEq, Prod.mk.injEq] at h'
    rw [← h'.1, ← h'.2]
    decide
  · have h' := h3.symm.trans hres
    simp only [Option.some.injEq, Prod.mk.injEq] at h'
    rw [← h'.1, ← h'.2]
    decide


/-- C4, witness for `handle_none_iff_login_error` at a failed-login state. -/
theorem handle_none_iff_login_error_witness :
    (none : Option Unit) = none ↔ LOGIN_STATE_ERROR = LOGIN_STATE_ERROR :=
  handle_none_iff_login_error ⟨some 2, none, none⟩ LOGIN_STATE_ERROR none rfl

/-- C5: after depositing the code, `enter_mfa_code` polls `login_state` for a
bounded number of polls (the deadline constant from line 244 is 30 seconds);
as soon as it observes a terminal value it returns "Failed to complete login"
for `LOGIN_STATE_ERROR` and "MFA code entered successfully." otherwise (in
particular for `LOGIN_STATE_SUCCESS`); if the state never appears within the
bound it returns "Timed out waiting for login to complete", and in every case
it writes nothing but `mfa_code` — the login attempt itself is untouched. -/
theorem enter_mfa_code_result_spec (code : Int) (s : Shared)
    (obs : Nat → Option Nat) (n i st : Nat)
    (hi : i < n) (hobs : obs i = some st) (hpre : ∀ j, j < i → obs j = none) :
    (enter_mfa_code code s obs n).2
      = (if st == LOGIN_STATE_ERROR then "Failed to complete login"
          else "MFA code entered successfully.") ∧
    (enter_mfa_code code s obs n).1.login_state = s.login_state ∧
    (enter_mfa_code code s obs n).1.need_mfa = s.need_mfa ∧
    (∀ obs2 : Nat → Option Nat, (∀ j, obs2 j = none) →
      (enter_mfa_code code s obs2 n).2 = "Timed out waiting for login to complete" ∧
      (enter_mfa_code code s obs2 n).1.login_state = s.login_state) ∧
    SUBMIT_WAIT_LIMIT = 30 := by
  refine ⟨enter_mfa_code_wait_hit i n obs st hi hobs hpre, rfl, rfl, ?_, rfl⟩
  intro obs2 h2
  exact ⟨enter_mfa_code_wait_all_none n obs2 h2, rfl⟩

/-- C5, witness: the spec's end-to-end scenario 2 — submit `123456` while the
worker awaits a code; the worker completes login; the bounded wait observes
`LOGIN_STATE_SUCCESS` at its second poll and returns the success message. -/
theorem enter_mfa_code_result_spec_witness :
    (enter_mfa_code 123456 ⟨none, some true, none⟩
        (fun j => if j == 0 then none else some LOGIN_STATE_SUCCESS) 300).2
      = "MFA code entered successfully." := by
  have h := enter_mfa_code_result_spec 123456 ⟨none, some true, none⟩
    (fun j => if j == 0 then none else some LOGIN_STATE_SUCCESS) 300 1
    LOGIN_STATE_SUCCESS (by decide) rfl
    (fun j hj => by
      have hj0 : j = 0 := Nat.lt_one_iff.mp hj
      subst hj0
      rfl)
  exact h.1.trans rfl

/-- C6: `login_state` is monotonic.  From any reachable state in which
`login_state` is set (to `LOGIN_STATE_SUCCESS` or `LOGIN_STATE_ERROR` — the
only values ever written, lines 102 and 111), no sequence of further steps of
any thread changes it, and the `need_mfa` flag can no longer change either:
no transition out of a terminal state is observable. -/
theorem login_state_terminal (s s' : Sys) (v : Nat) (hr : Reachable s)
    (hsteps : Steps s s') (hv : s.login_state = some v) :
    s'.login_state = some v ∧ s'.need_mfa = s.need_mfa := by
  induction hsteps with
  | refl => exact ⟨hv, rfl⟩
  | tail t u l hst hstep ih =>
    have hrt : Reachable t := reachable_of_steps s t hr hst
    obtain ⟨h1, h2⟩ := ih
    have h3 := login_state_monotonic_step t u l v hrt hstep h1
    exact ⟨h3.1, h3.2.trans h2⟩

/-- C6, witness: after a successful login, a later `enter_mfa_code` deposit
leaves the terminal `login_state` untouched. -/
theorem login_state_terminal_witness :
    (⟨some LOGIN_STATE_SUCCESS, none, some 5, WPC.done⟩ : Sys).login_state
      = some LOGIN_STATE_SUCCESS ∧
    (⟨some LOGIN_STATE_SUCCESS, none, some 5, WPC.done⟩ : Sys).need_mfa
      = (⟨some LOGIN_STATE_SUCCESS, none, none, WPC.done⟩ : Sys).need_mfa := by
  have hsteps : Steps ⟨some LOGIN_STATE_SUCCESS, none, none, WPC.done⟩
      ⟨some LOGIN_STATE_SUCCESS, none, some 5, WPC.done⟩ :=
    Steps.tail _ _ _ (Label.deposit 5) (Steps.refl _)
      (Step.deposit ⟨some LOGIN_STATE_SUCCESS, none, none, WPC.done⟩ 5)
  exact login_state_terminal ⟨some LOGIN_STATE_SUCCESS, none, none, WPC.done⟩
    ⟨some LOGIN_STATE_SUCCESS, none, some 5, WPC.done⟩ LOGIN_STATE_SUCCESS
    reachable_success_done hsteps rfl

/-- C7, counterexample: on silent-login success (`garmin.login(tokenstore)`
raising nothing, lines 53-68) `init_api` falls through to line 128 and
returns at once — its effect trace contains NO token-persistence effect: the
dumps of lines 88-96 live only in the interactive `login()` thread body, so
"persist refreshed tokens" does not happen on the silent path. -/
theorem silent_login_no_token_persist :
    init_api_start (Except.ok ())
      = Except.ok ([Eff.silentLogin], some (LOGIN_STATE_SUCCESS, some ())) ∧
    Eff.dumpTokensDir ∉ [Eff.silentLogin] ∧
    Eff.dumpTokensB64 ∉ [Eff.silentLogin] := by
  refine ⟨rfl, by decide, by decide⟩

/-- C7, amended: if silent login succeeds, `init_api` returns
`(LOGIN_STATE_SUCCESS, handle)` — Authenticated with the non-null handle —
without starting the login thread or the interactive login, so the MFA
channel is never used (`need_mfa` is only ever set inside `get_mfa`, which
only the thread runs); but no token persistence is performed on this path:
both dumps happen only on the interactive thread's success path. -/
theorem silent_login_success_spec :
    init_api_start (Except.ok ())
      = Except.ok ([Eff.silentLogin], some (LOGIN_STATE_SUCCESS, some ())) ∧
    Eff.startThread ∉ [Eff.silentLogin] ∧
    Eff.interactiveLogin ∉ [Eff.silentLogin] ∧
    Eff.dumpTokensDir ∈ login_thread_success_effects ∧
    Eff.dumpTokensB64 ∈ login_thread_success_effects :=
  ⟨rfl, by decide, by decide, by decide, by decide⟩

/-- C8, counterexample: the deposit of code `0` by `enter_mfa_code` stays in
`mfa_code`, yet the worker's consumption guard `if mfa_code:` (line 146) is
never satisfied — over the full 1800 s wait (18000 polls) the deposited code
is consumed zero times, not exactly once. -/
theorem zero_code_deposited_never_consumed :
    (enter_mfa_code 0 ⟨none, some true, none⟩ (fun _ => none)
        (10 * SUBMIT_WAIT_LIMIT)).1.mfa_code = some 0 ∧
    get_mfa_wait (fun _ => some 0) (10 * MFA_TIMEOUT)
      = Except.error "MFA timeout" := by
  refine ⟨rfl, get_mfa_wait_all_falsy _ _ (fun _ => by decide)⟩

/-- C8, amended: every consumption step of the worker happens while
`need_mfa = True` (the AwaitingMFA phase), requires a truthy stored code,
and atomically (in one lock-protected step, lines 146-149) clears both the
stored code and the flag, so the code is absent afterwards and cannot be
consumed again without a fresh deposit — consumption is at most once per
deposit, but not exactly once: a deposited falsy code (`0`) is never
consumed. -/
theorem mfa_consume_spec (s s' : Sys) (c : Int) (hr : Reachable s)
    (hstep : Step s (Label.consume c) s') :
    s.need_mfa = some true ∧ s.mfa_code = some c ∧ c ≠ 0 ∧
    s'.mfa_code = none ∧ s'.need_mfa = some false ∧
    (∀ (c' : Int) (s'' : Sys), ¬ Step s' (Label.consume c') s'') := by
  cases hstep with
  | consume c hpc hcode hne =>
    refine ⟨reachable_mfaWait_need s hr hpc, hcode, hne, rfl, rfl, ?_⟩
    intro c' s'' hstep'
    cases hstep' with
    | consume c' hpc' hcode' hne' => exact Option.noConfusion hcode'

/-- C8, witness for `mfa_consume_spec` at a concrete reachable consume step. -/
theorem mfa_consume_spec_witness :
    (⟨none, some true, some 5, WPC.mfaWait⟩ : Sys).need_mfa = some true ∧
    (⟨none, some false, none, WPC.run⟩ : Sys).mfa_code = none := by
  have hr : Reachable ⟨none, some true, some 5, WPC.mfaWait⟩ :=
    Reachable.step _ (Label.deposit 5) _ reachable_awaitingMfa
      (Step.deposit ⟨none, some true, none, WPC.mfaWait⟩ 5)
  have h := mfa_consume_spec ⟨none, some true, some 5, WPC.mfaWait⟩
    ⟨none, some false, none, WPC.run⟩ 5 hr
    (Step.consume ⟨none, some true, some 5, WPC.mfaWait⟩ 5 rfl rfl (by decide))
  exact ⟨h.1, h.2.2.2.1⟩

/-- C9, counterexample: `init_api` does not return immediately — while the
background thread has published nothing (all three globals still `None`),
the caller is still blocked inside the wait loop of lines 117-126 after any
number of polls (1000 polls = 100 seconds here). -/
theorem init_api_blocks_caller :
    init_api_wait (fun _ => ⟨none, none, none⟩) 1000 = none ∧
    init_api_poll ⟨none, none, none⟩ = none :=
  ⟨init_api_wait_all_none 1000 _ (fun _ => rfl), rfl⟩

/-- C9, amended: `init_api` starts the handshake on a background thread but
then blocks its own caller, polling the shared state, until the worker
publishes something: it stays blocked while every poll sees nothing, returns
the first published result within the poll bound, and an MFA signal in
particular makes it return `(LOGIN_STATE_MFA, handle)` — only from then on
does the rest of the handshake run without blocking the caller. -/
theorem init_api_wait_spec (obs : Nat → Shared) (n i : Nat)
    (r : Nat × Option Unit) (hi : i < n)
    (hhit : init_api_poll (obs i) = some r)
    (hpre : ∀ j, j < i → init_api_poll (obs j) = none) :
    init_api_wait obs n = some r ∧
    (∀ (obs2 : Nat → Shared) (m : Nat), (∀ j, init_api_poll (obs2 j) = none) →
      init_api_wait obs2 m = none) ∧
    (∀ s : Shared, truthyFlag s.need_mfa = true →
      init_api_poll s = some (LOGIN_STATE_MFA, some ())) := by
  refine ⟨init_api_wait_hit i n obs r hi hhit hpre, ?_, ?_⟩
  · intro obs2 m hall
    exact init_api_wait_all_none m obs2 hall
  · intro s hs
    simp [init_api_poll, hs]

/-- C9, witness: the worker signals MFA at the second poll and `init_api`
returns `(LOGIN_STATE_MFA, handle)`. -/
theorem init_api_wait_spec_witness :
    init_api_wait
        (fun j => if j == 0 then ⟨none, none, none⟩ else ⟨none, some true, none⟩)
        2
      = some (LOGIN_STATE_MFA, some ()) := by
  have h := init_api_wait_spec
    (fun j => if j == 0 then ⟨none, none, none⟩ else ⟨none, some true, none⟩)
    2 1 (LOGIN_STATE_MFA, some ()) (by decide) rfl
    (fun j hj => by
      have hj0 : j = 0 := Nat.lt_one_iff.mp hj
      subst hj0
      rfl)
  exact h.1

set_option maxRecDepth 8000 in
/-- C10: a submitted MFA code of `0` is indistinguishable from "no code
deposited": the consumption guard `if mfa_code:` (line 146) is Python
truthiness, false for `0` exactly as for `None`; with `0` deposited the
worker's wait runs its full 1800 s deadline (18000 polls at 0.1 s) and raises
the timeout, never consuming, while the submitter's own 30 s wait (300 polls,
`login_state` never set) returns the timed-out message. -/
theorem zero_code_scenario :
    truthyCode (some 0) = truthyCode none ∧
    (enter_mfa_code 0 ⟨none, some true, none⟩ (fun _ => none) 300).1.mfa_code
      = some 0 ∧
    get_mfa_wait (fun _ => some 0) (10 * MFA_TIMEOUT)
      = Except.error "MFA timeout" ∧
    MFA_TIMEOUT = 1800 ∧ SUBMIT_WAIT_LIMIT = 30 ∧
    (enter_mfa_code 0 ⟨none, some true, none⟩ (fun _ => none) 300).2
      = "Timed out waiting for login to complete" := by
  refine ⟨by decide, rfl, get_mfa_wait_all_falsy _ _ (fun _ => by decide), rfl,
    rfl, enter_mfa_code_wait_all_none 300 _ (fun _ => rfl)⟩

end GarminMcp
